import Mathlib

/-!
Shallow embedding of the JWT middleware (package `jwt_auth_middleware`:
`config.py`, `jwt_utils.py`, `blacklist.py`, `middleware.py`, plus the legacy
root-level `config.py`).

Modelling conventions:
* Python dicts of JSON values become association lists (`Claims`) with dict
  semantics: lookup finds the first binding, update replaces in place or
  appends, `pop` removes the key.  JSON arrays appear in this code base only
  as the `roles` / `permissions` collections of strings, so array values are
  modelled as lists of strings.
* `jwt.encode` / `jwt.decode` (the PyJWT dependency) are modelled
  structurally: an encoded token is the triple (claims, key, algorithm), and
  `decode` checks the key and algorithm, then validates `exp` exactly as
  PyJWT does (`exp <= now` is expired; a missing `exp` claim is accepted; a
  non-integer `exp` is a decode error).  Strings that are not JWTs at all are
  `TokenStr.garbage`.
* `hashlib.sha256` is modelled as an idealized deterministic, collision-free
  digest (`Fingerprint` wraps the token).
* The remote MongoDB-API blacklist store is modelled as explicit state
  (`Store`): a list of records plus an availability flag; an HTTP call that
  raises or returns a non-200 status is an unavailable store.  Each
  `requests.post` call in the source becomes a read/update of that state.
* The module-global configuration singleton (`set_jwt_config`) is modelled
  by passing the configuration explicitly.  `_get_blacklist_manager` never
  produces a manager: when `enable_blacklist` and `mongodb_api_url` are
  truthy it calls `BlacklistManager(jwt_config=config)` (`jwt_utils.py`
  line 38), which raises `TypeError` because `mongodb_api_url` is a
  required positional parameter of `BlacklistManager.__init__` with no
  default (`blacklist.py` lines 16-19); on every other path it returns
  `None`.  The uncaught `TypeError` escaping `verify_token` is the
  `VerifyError.typeError` constructor.  `BlacklistManager` methods called
  directly (as the repository's own tests do) are modelled as the
  `add_to_blacklist` / `is_blacklisted` functions below.
* `datetime.now(timezone.utc)` becomes an explicit `now : Int` (seconds since
  epoch); `timedelta(minutes=m)` is `60 * m` seconds.  `uuid.uuid4()` becomes
  an explicit `jti` argument.
* Python exceptions become `Except` / `Option` results; the distinct
  exception messages raised by `jwt_utils` become the constructors of
  `VerifyError`.
-/

/-- JSON-compatible values carried in a claims payload.  Arrays are modelled
as arrays of strings, the only shape the middleware's `roles` /
`permissions` collections use. -/
inductive JVal where
  | str (s : String)
  | num (n : Int)
  | bool (b : Bool)
  | null
  | arr (xs : List String)
deriving DecidableEq, Repr

/-- A claims set: a Python dict as an ordered association list. -/
abbrev Claims := List (String × JVal)

/-- Dict lookup: `d.get(k)` / `d[k]` — the first binding for `k`. -/
def Claims.get (c : Claims) (k : String) : Option JVal :=
  (c.find? (fun p => p.1 == k)).map (fun p => p.2)

/-- Dict update `d[k] = v` (one key of `dict.update`): replaces the binding
in place when the key is present, otherwise appends it. -/
def Claims.insert (c : Claims) (k : String) (v : JVal) : Claims :=
  if c.any (fun p => p.1 == k) then
    c.map (fun p => if p.1 == k then (k, v) else p)
  else
    c ++ [(k, v)]

/-- Dict removal `d.pop(k, None)`. -/
def Claims.erase (c : Claims) (k : String) : Claims :=
  c.filter (fun p => p.1 != k)

/-- Failure modes of `jwt.decode`: `ExpiredSignatureError`, or any other
`InvalidTokenError` (bad signature, malformed input, bad `exp` type). -/
inductive DecodeError where
  | expiredSig
  | invalidTok
deriving DecidableEq, Repr

/-- A token string: either the output of `jwt.encode(claims, key, algorithm)`
(modelled structurally) or a string that is not a JWT at all. -/
inductive TokenStr where
  | valid (claims : Claims) (key : String) (alg : String)
  | garbage (s : String)
deriving DecidableEq, Repr

/-- PyJWT `jwt.decode(token, key, algorithms=[alg])` at server time `now`:
signature/structure check, then `exp` validation (`exp <= now` is expired,
inclusive boundary; a missing `exp` is accepted). -/
def jwtDecode (t : TokenStr) (key : String) (alg : String) (now : Int) :
    Except DecodeError Claims :=
  match t with
  | .garbage _ => .error .invalidTok
  | .valid c k a =>
    if k == key && a == alg then
      match Claims.get c "exp" with
      | some (.num e) => if e ≤ now then .error .expiredSig else .ok c
      | some _ => .error .invalidTok
      | none => .ok c
    else
      .error .invalidTok

/-- Configuration object built by `jwt_auth_middleware/config.py`
(`JWTConfig.__init__`): the fields it assigns from the secret key and the
YAML configuration file. -/
structure JWTConfig where
  secret_key : String
  algorithm : String
  access_token_expires : Int
  refresh_token_expires : Int
  api_mode : String
  mongodb_api_url : String
  blacklist_collection : String
  enable_blacklist : Bool
deriving DecidableEq, Repr

/-- Python string-truthiness plus `.strip() == ''`: blank means empty or
all-whitespace. -/
def strBlank (s : String) : Bool :=
  s.data.all Char.isWhitespace

/-- `JWTConfig.validate` of the package `config.py` (lines 159-179):
non-blank secret key and store URL, positive lifetimes, recognised API
mode. -/
def JWTConfig.validate (c : JWTConfig) : Bool :=
  !strBlank c.secret_key &&
  !strBlank c.mongodb_api_url &&
  decide (0 < c.access_token_expires) &&
  decide (0 < c.refresh_token_expires) &&
  (c.api_mode == "internal" || c.api_mode == "public")

/-- Character-list prefix test (structural, used for URL scheme checks). -/
def charPrefixOf : List Char → List Char → Bool
  | [], _ => true
  | _ :: _, [] => false
  | a :: as, b :: bs => a == b && charPrefixOf as bs

/-- `url.startswith(('http://', 'https://'))`. -/
def hasUrlScheme (s : String) : Bool :=
  charPrefixOf "http://".data s.data || charPrefixOf "https://".data s.data

/-- Failures of `JWTConfig.__init__`: `ValueError` (the spec's
`ConfigurationInvalid`, tagged with the offending field) or
`FileNotFoundError`. -/
inductive ConfigError where
  | valueError (what : String)
  | fileNotFound
deriving DecidableEq, Repr

/-- Contents of a structurally complete YAML configuration file (the keys
`_validate_config_structure` requires to be present). -/
structure YamlConfig where
  algorithm : String
  access_token_expires : Int
  refresh_token_expires : Int
  api_mode : String
  internal_api_url : String
  public_api_url : String
  blacklist_collection : String
  blacklist_enabled : Bool
deriving DecidableEq, Repr

/-- The fixed algorithm allow-list of `_validate_config_structure`. -/
def validAlgorithms : List String :=
  ["HS256", "HS384", "HS512", "RS256", "RS384", "RS512"]

/-- `JWTConfig.__init__(secret_key, config_file)` of the package
`config.py`: required-argument checks, YAML loading (the filesystem is the
`readFile` argument; a structurally incomplete file is `none`), value
validation in source order (API mode, URL schemes, positive lifetimes,
algorithm allow-list), then field assignment, picking the store URL by API
mode. -/
def createJWTConfig (secret_key : String) (config_file : String)
    (readFile : String → Option YamlConfig) : Except ConfigError JWTConfig :=
  if strBlank secret_key then
    .error (.valueError "JWT_SECRET_KEY")
  else if strBlank config_file then
    .error (.valueError "config_file")
  else
    match readFile config_file with
    | none => .error .fileNotFound
    | some y =>
      if !(y.api_mode == "internal" || y.api_mode == "public") then
        .error (.valueError "api.mode")
      else if !hasUrlScheme y.internal_api_url then
        .error (.valueError "internal_api_url")
      else if !hasUrlScheme y.public_api_url then
        .error (.valueError "public_api_url")
      else if !(decide (0 < y.access_token_expires)) then
        .error (.valueError "access_token_expires")
      else if !(decide (0 < y.refresh_token_expires)) then
        .error (.valueError "refresh_token_expires")
      else if !(validAlgorithms.contains y.algorithm) then
        .error (.valueError "algorithm")
      else
        .ok { secret_key := secret_key
              algorithm := y.algorithm
              access_token_expires := y.access_token_expires
              refresh_token_expires := y.refresh_token_expires
              api_mode := y.api_mode
              mongodb_api_url :=
                if y.api_mode == "internal" then y.internal_api_url
                else y.public_api_url
              blacklist_collection := y.blacklist_collection
              enable_blacklist := y.blacklist_enabled }

/-- The legacy root-level `config.py` configuration object. -/
structure LegacyJWTConfig where
  secret_key : String
  algorithm : String
  access_token_expires : Int
  refresh_token_expires : Int
deriving DecidableEq, Repr

/-- `JWTConfig.validate` of the legacy root-level `config.py` (lines 32-43):
false for a falsy or placeholder secret key or a non-positive access
lifetime. -/
def LegacyJWTConfig.validate (c : LegacyJWTConfig) : Bool :=
  if c.secret_key == "" || c.secret_key == "your-secret-key-here" then false
  else if c.access_token_expires ≤ 0 then false
  else true

/-- Fingerprint produced by `BlacklistManager._hash_token`
(`hashlib.sha256(token.encode()).hexdigest()`), modelled as an idealized
deterministic collision-free digest of the token string. -/
structure Fingerprint where
  digest : TokenStr
deriving DecidableEq, Repr

/-- `BlacklistManager._hash_token`. -/
def hash_token (t : TokenStr) : Fingerprint := ⟨t⟩

/-- A blacklist document as built by `add_to_blacklist`: fingerprint,
reason, revocation instant, and the token's `exp` or `None`. -/
structure BLRecord where
  token_hash : Fingerprint
  reason : String
  revoked_at : Int
  expires_at : Option Int
deriving DecidableEq, Repr

/-- State of the remote MongoDB-API store: its records, and whether HTTP
calls to it currently succeed (an exception or non-200 response is an
unavailable store). -/
structure Store where
  available : Bool
  records : List BLRecord
deriving DecidableEq, Repr

/-- `BlacklistManager._get_token_expiration`: best-effort local decode of
the token to read its `exp`; any decode failure (bad signature, malformed,
already expired) yields `None`. -/
def get_token_expiration (cfg : JWTConfig) (now : Int) (t : TokenStr) :
    Option Int :=
  match jwtDecode t cfg.secret_key cfg.algorithm now with
  | .ok payload =>
    match Claims.get payload "exp" with
    | some (.num e) => some e
    | _ => none
  | .error _ => none

/-- `BlacklistManager.add_to_blacklist`: hash the token, best-effort decode
for its expiry, build the document, POST it to `/insert`; true exactly when
the remote write succeeded (status 200), false on error with no write. -/
def add_to_blacklist (cfg : JWTConfig) (store : Store) (now : Int)
    (t : TokenStr) (reason : String) : Bool × Store :=
  let doc : BLRecord :=
    { token_hash := hash_token t
      reason := reason
      revoked_at := now
      expires_at := get_token_expiration cfg now t }
  if store.available then
    (true, { store with records := store.records ++ [doc] })
  else
    (false, store)

/-- `BlacklistManager.is_blacklisted`: hash the token and query `/find`;
true iff the query succeeded and returned at least one document; any HTTP
error or exception is caught and reported as plain `false`. -/
def is_blacklisted (store : Store) (t : TokenStr) : Bool :=
  if store.available then
    decide (0 < (store.records.filter
      (fun rec => rec.token_hash == hash_token t)).length)
  else
    false

/-- The exceptions escaping `jwt_utils`'s verification stack: "Token has
expired", "Invalid token", "Token has been revoked" (raised in the source
but unreachable, see `verify_token`), the two "Invalid token type:
expected ... token" messages, and the uncaught `TypeError` raised by the
`BlacklistManager(jwt_config=config)` call inside
`_get_blacklist_manager`. -/
inductive VerifyError where
  | expired
  | invalid
  | revoked
  | wrongType (expected : String)
  | typeError
deriving DecidableEq, Repr

deriving instance DecidableEq for Except

/-- The condition under which `_get_blacklist_manager` attempts to build a
manager: the blacklist is enabled and the store URL is truthy.  On exactly
this path the source calls `BlacklistManager(jwt_config=config)`
(`jwt_utils.py` line 38), omitting the required positional
`mongodb_api_url` of `BlacklistManager.__init__` (`blacklist.py` lines
16-19), so the call raises `TypeError` and no manager is ever produced; on
every other path the function returns `None`. -/
def managerInitCrashes (cfg : JWTConfig) : Bool :=
  cfg.enable_blacklist && !(cfg.mongodb_api_url == "")

/-- `create_access_token(data, expires_delta)`: copy the caller claims,
stamp `exp` (custom delta in seconds, else the configured minutes), `type`,
`iat` and `jti`, then encode under the configured key and algorithm. -/
def create_access_token (cfg : JWTConfig) (now : Int) (jti : String)
    (data : Claims) (expires_delta : Option Int) : TokenStr :=
  let expire : Int :=
    match expires_delta with
    | some d => now + d
    | none => now + 60 * cfg.access_token_expires
  let to_encode :=
    ((((data.insert "exp" (.num expire)).insert "type" (.str "access")).insert
      "iat" (.num now)).insert "jti" (.str jti))
  .valid to_encode cfg.secret_key cfg.algorithm

/-- `create_refresh_token(data)`: same stamping with `type = "refresh"` and
the configured refresh lifetime. -/
def create_refresh_token (cfg : JWTConfig) (now : Int) (jti : String)
    (data : Claims) : TokenStr :=
  let expire : Int := now + 60 * cfg.refresh_token_expires
  let to_encode :=
    ((((data.insert "exp" (.num expire)).insert "type" (.str "refresh")).insert
      "iat" (.num now)).insert "jti" (.str jti))
  .valid to_encode cfg.secret_key cfg.algorithm

/-- `verify_token(token)`: decode; map `ExpiredSignatureError` to
"Token has expired" and other `InvalidTokenError`s to "Invalid token".  On
a successful decode the source calls `_get_blacklist_manager()`: when the
blacklist is enabled and the URL is truthy that call raises `TypeError`,
which neither `except` clause catches, so it escapes `verify_token`;
otherwise the manager is `None`, the blacklist branch
(`if jwt_config.enable_blacklist and blacklist_manager`) is falsy and the
payload is returned.  The `raise Exception("Token has been revoked")`
branch is unreachable because it requires a manager and none is ever
produced.  The remote store is therefore never consulted and does not
appear as an argument. -/
def verify_token (cfg : JWTConfig) (now : Int) (t : TokenStr) :
    Except VerifyError Claims :=
  match jwtDecode t cfg.secret_key cfg.algorithm now with
  | .error .expiredSig => .error .expired
  | .error .invalidTok => .error .invalid
  | .ok payload =>
    if managerInitCrashes cfg then .error .typeError
    else .ok payload

/-- `verify_access_token(token)`: `verify_token`, then require
`payload.get("type") == "access"`. -/
def verify_access_token (cfg : JWTConfig) (now : Int) (t : TokenStr) :
    Except VerifyError Claims :=
  match verify_token cfg now t with
  | .error e => .error e
  | .ok payload =>
    if Claims.get payload "type" = some (.str "access") then .ok payload
    else .error (.wrongType "access")

/-- `verify_refresh_token(token)`: `verify_token`, then require
`payload.get("type") == "refresh"`. -/
def verify_refresh_token (cfg : JWTConfig) (now : Int) (t : TokenStr) :
    Except VerifyError Claims :=
  match verify_token cfg now t with
  | .error e => .error e
  | .ok payload =>
    if Claims.get payload "type" = some (.str "refresh") then .ok payload
    else .error (.wrongType "refresh")

/-- `refresh_access_token(refresh_token)`: verify as a refresh token, pop
`exp`, `type`, `iat`, `jti`, and issue a fresh access token from the rest;
any exception — including the manager-construction `TypeError` — is caught
by the broad `except Exception` and yields `None`. -/
def refresh_access_token (cfg : JWTConfig) (now : Int)
    (jti_new : String) (rt : TokenStr) : Option TokenStr :=
  match verify_refresh_token cfg now rt with
  | .error _ => none
  | .ok payload =>
    let stripped :=
      (((payload.erase "exp").erase "type").erase "iat").erase "jti"
    some (create_access_token cfg now jti_new stripped none)

/-- `revoke_token(token, reason)`: verify the token first.  When the
blacklist is enabled and the URL is truthy, the inner `verify_token`
raises the manager-construction `TypeError`, which the broad
`except Exception` swallows, returning false.  When verification succeeds
(so the crashing path was not taken), `_get_blacklist_manager()` returns
`None`, the `if jwt_config.enable_blacklist and blacklist_manager` test is
falsy, and the warning branch returns false.  Hence `revoke_token` always
returns false and never writes to the remote store. -/
def revoke_token (cfg : JWTConfig) (store : Store) (now : Int)
    (t : TokenStr) (reason : String) : Bool × Store :=
  match verify_token cfg now t with
  | .error _ => (false, store)
  | .ok _ => (false, store)

/-- Roles collection of a verified claims set:
`current_user.get("roles", [])`, restricted to the collection-valued shape
the middleware documents (a missing field is the empty collection). -/
def rolesOf (c : Claims) : List String :=
  match Claims.get c "roles" with
  | some (.arr xs) => xs
  | _ => []

/-- Permissions collection of a verified claims set:
`current_user.get("permissions", [])`, as for `rolesOf`. -/
def permsOf (c : Claims) : List String :=
  match Claims.get c "permissions" with
  | some (.arr xs) => xs
  | _ => []

/-- The role predicate of `role_required(required_roles)`:
`any(role in user_roles for role in roles_list)`. -/
def roleCheck (required : List String) (c : Claims) : Bool :=
  required.any (fun r => (rolesOf c).contains r)

/-- The permission predicate of `permission_required(required_permissions)`:
`all(perm in user_permissions for perm in permissions_list)`. -/
def permCheck (required : List String) (c : Claims) : Bool :=
  required.all (fun p => (permsOf c).contains p)

/-- Lookup on a cons cell: the head binding wins when its key matches. -/
theorem claims_get_cons (a : String) (b : JVal) (c : Claims) (k : String) :
    Claims.get ((a, b) :: c) k = if a == k then some b else Claims.get c k := by
  by_cases h : (a == k) = true <;>
    simp [Claims.get, List.find?_cons, h]

/-- Replacing the binding of `k` in place makes `k` map to the new value. -/
theorem claims_get_map_update (k : String) (v : JVal) :
    ∀ c : Claims, c.any (fun p => p.1 == k) = true →
      Claims.get (c.map (fun p => if p.1 == k then (k, v) else p)) k = some v := by
  intro c
  induction c with
  | nil => intro h; simp at h
  | cons p rest ih =>
    intro h
    obtain ⟨a, b⟩ := p
    by_cases ha : a = k
    · subst ha
      simp [claims_get_cons]
    · have hb : (a == k) = false := by simp [ha]
      simp only [List.map_cons] at *
      rw [show (if (a, b).1 == k then (k, v) else (a, b)) = (a, b) by simp [hb]]
      rw [claims_get_cons, if_neg (by simp [ha])]
      apply ih
      simpa [List.any_cons, hb] using h

/-- Replacing the binding of another key leaves the lookup of `k`
unchanged. -/
theorem claims_get_map_update_ne (k' k : String) (v : JVal) (hne : k' ≠ k) :
    ∀ c : Claims, Claims.get (c.map (fun p => if p.1 == k' then (k', v) else p)) k
      = Claims.get c k := by
  intro c
  induction c with
  | nil => simp [Claims.get]
  | cons p rest ih =>
    obtain ⟨a, b⟩ := p
    simp only [List.map_cons]
    by_cases ha : a = k'
    · subst ha
      rw [show (if (a, b).1 == a then (a, v) else (a, b)) = (a, v) by simp]
      rw [claims_get_cons, claims_get_cons, if_neg (by simp [hne]),
        if_neg (by simp [hne]), ih]
    · rw [show (if (a, b).1 == k' then (k', v) else (a, b)) = (a, b) by simp [ha]]
      rw [claims_get_cons, claims_get_cons, ih]

/-- After `insert`, the inserted key maps to the inserted value. -/
theorem claims_get_insert_self (c : Claims) (k : String) (v : JVal) :
    Claims.get (Claims.insert c k v) k = some v := by
  unfold Claims.insert
  by_cases h : c.any (fun p => p.1 == k) = true
  · rw [if_pos h]
    exact claims_get_map_update k v c h
  · rw [if_neg h]
    have hn : c.find? (fun p => p.1 == k) = none := by
      rw [List.find?_eq_none]
      intro x hx hpx
      exact h (List.any_eq_true.mpr ⟨x, hx, hpx⟩)
    simp [Claims.get, List.find?_append, hn]

/-- `insert` of one key leaves lookups of other keys unchanged. -/
theorem claims_get_insert_ne (c : Claims) (k' k : String) (v : JVal)
    (hne : k' ≠ k) :
    Claims.get (Claims.insert c k' v) k = Claims.get c k := by
  unfold Claims.insert
  by_cases h : c.any (fun p => p.1 == k') = true
  · rw [if_pos h]
    exact claims_get_map_update_ne k' k v hne c
  · rw [if_neg h]
    cases hc : c.find? (fun p => p.1 == k) <;>
      simp [Claims.get, List.find?_append, hc, hne]

/-- After `erase`, the erased key is absent. -/
theorem claims_get_erase_self (c : Claims) (k : String) :
    Claims.get (Claims.erase c k) k = none := by
  unfold Claims.erase
  induction c with
  | nil => simp [Claims.get]
  | cons p rest ih =>
    obtain ⟨a, b⟩ := p
    by_cases ha : a = k
    · subst ha
      simpa [List.filter_cons] using ih
    · simp only [List.filter_cons]
      rw [if_pos (by simp [ha])]
      rw [claims_get_cons, if_neg (by simp [ha])]
      exact ih

/-- `erase` of one key leaves lookups of other keys unchanged. -/
theorem claims_get_erase_ne (c : Claims) (k' k : String) (hne : k' ≠ k) :
    Claims.get (Claims.erase c k') k = Claims.get c k := by
  unfold Claims.erase
  induction c with
  | nil => simp [Claims.get]
  | cons p rest ih =>
    obtain ⟨a, b⟩ := p
    by_cases ha : a = k'
    · subst ha
      simp only [List.filter_cons]
      rw [if_neg (by simp)]
      rw [ih, claims_get_cons, if_neg (by simp [hne])]
    · simp only [List.filter_cons]
      rw [if_pos (by simp [ha])]
      rw [claims_get_cons, claims_get_cons, ih]

/-- In a freshly stamped payload the `exp` claim is the stamped expiry. -/
theorem stamp_get_exp (c : Claims) (e : Int) (ty : String) (i : Int)
    (j : String) :
    Claims.get ((((c.insert "exp" (.num e)).insert "type" (.str ty)).insert
      "iat" (.num i)).insert "jti" (.str j)) "exp" = some (.num e) := by
  rw [claims_get_insert_ne _ _ _ _ (by decide),
    claims_get_insert_ne _ _ _ _ (by decide),
    claims_get_insert_ne _ _ _ _ (by decide), claims_get_insert_self]

/-- In a freshly stamped payload the `type` claim is the stamped type. -/
theorem stamp_get_type (c : Claims) (e : Int) (ty : String) (i : Int)
    (j : String) :
    Claims.get ((((c.insert "exp" (.num e)).insert "type" (.str ty)).insert
      "iat" (.num i)).insert "jti" (.str j)) "type" = some (.str ty) := by
  rw [claims_get_insert_ne _ _ _ _ (by decide),
    claims_get_insert_ne _ _ _ _ (by decide), claims_get_insert_self]

/-- Stamping the four reserved claims leaves every other key unchanged. -/
theorem stamp_get_other (c : Claims) (e : Int) (ty : String) (i : Int)
    (j : String) (k : String) (h1 : "exp" ≠ k) (h2 : "type" ≠ k)
    (h3 : "iat" ≠ k) (h4 : "jti" ≠ k) :
    Claims.get ((((c.insert "exp" (.num e)).insert "type" (.str ty)).insert
      "iat" (.num i)).insert "jti" (.str j)) k = Claims.get c k := by
  rw [claims_get_insert_ne _ _ _ _ h4, claims_get_insert_ne _ _ _ _ h3,
    claims_get_insert_ne _ _ _ _ h2, claims_get_insert_ne _ _ _ _ h1]

/-- A configuration that passes `validate` has a positive access-token
lifetime. -/
theorem validate_pos_access {cfg : JWTConfig} (h : cfg.validate = true) :
    0 < cfg.access_token_expires := by
  simp only [JWTConfig.validate, Bool.and_eq_true, decide_eq_true_eq] at h
  exact h.1.1.2

/-- A configuration that passes `validate` has a positive refresh-token
lifetime. -/
theorem validate_pos_refresh {cfg : JWTConfig} (h : cfg.validate = true) :
    0 < cfg.refresh_token_expires := by
  simp only [JWTConfig.validate, Bool.and_eq_true, decide_eq_true_eq] at h
  exact h.1.2

/-- Example configuration used to instantiate the universal theorems. -/
def cfgEx : JWTConfig where
  secret_key := "test-secret"
  algorithm := "HS256"
  access_token_expires := 30
  refresh_token_expires := 1440
  api_mode := "internal"
  mongodb_api_url := "http://db.local"
  blacklist_collection := "jwt_blacklist"
  enable_blacklist := true

/-- Example store state: reachable, no revocation records. -/
def storeEx : Store := { available := true, records := [] }

/-- The example configuration with the blacklist feature switched off. -/
def cfgOff : JWTConfig := { cfgEx with enable_blacklist := false }

/-- C3 counterexample: `cfgEx` is a valid configuration (it passes
`validate`) with the blacklist enabled, yet verifying a freshly issued,
unexpired access token does not succeed — the uncaught `TypeError` of the
manager construction escapes `verify_token`. -/
theorem issue_access_crashes_when_enabled_cex :
    cfgEx.validate = true
      ∧ cfgEx.enable_blacklist = true
      ∧ verify_token cfgEx 0
          (create_access_token cfgEx 0 "jti-1" [("sub", JVal.str "u1")] none)
          = .error .typeError := by
  decide

/-- C3 amended: for every claims set containing none of the reserved keys
and every valid configuration whose blacklist feature is disabled,
verifying a freshly issued access token succeeds while it is unexpired and
returns a payload that extends the caller claims with `type = "access"`;
with the blacklist enabled, verification instead fails with the uncaught
manager-construction `TypeError`. -/
theorem issue_access_verify_roundtrip (cfg : JWTConfig)
    (now : Int) (jti : String) (c : Claims)
    (hval : cfg.validate = true)
    (hoff : cfg.enable_blacklist = false)
    (hexp : Claims.get c "exp" = none) (hty : Claims.get c "type" = none)
    (hiat : Claims.get c "iat" = none) (hjti : Claims.get c "jti" = none) :
    ∃ p, verify_token cfg now (create_access_token cfg now jti c none) = .ok p
      ∧ (∀ k v, Claims.get c k = some v → Claims.get p k = some v)
      ∧ Claims.get p "type" = some (.str "access") := by
  have hacc := validate_pos_access hval
  set tc := ((((c.insert "exp" (.num (now + 60 * cfg.access_token_expires))).insert
      "type" (.str "access")).insert "iat" (.num now)).insert
      "jti" (.str jti)) with htc
  have htok : create_access_token cfg now jti c none
      = .valid tc cfg.secret_key cfg.algorithm := by
    simp [create_access_token, htc]
  have hdec : jwtDecode (create_access_token cfg now jti c none)
      cfg.secret_key cfg.algorithm now = .ok tc := by
    rw [htok]
    simp only [jwtDecode, beq_self_eq_true, Bool.and_self, if_true]
    simp only [htc, stamp_get_exp]
    rw [if_neg (by omega)]
  refine ⟨tc, ?_, ?_, ?_⟩
  · simp only [verify_token, hdec]
    simp [managerInitCrashes, hoff]
  · intro k v hkv
    have h1 : ("exp" : String) ≠ k := by rintro rfl; simp [hexp] at hkv
    have h2 : ("type" : String) ≠ k := by rintro rfl; simp [hty] at hkv
    have h3 : ("iat" : String) ≠ k := by rintro rfl; simp [hiat] at hkv
    have h4 : ("jti" : String) ≠ k := by rintro rfl; simp [hjti] at hkv
    rw [htc, stamp_get_other _ _ _ _ _ _ h1 h2 h3 h4]
    exact hkv
  · rw [htc, stamp_get_type]

/-- Witness for the amended C3 at a concrete disabled-blacklist
configuration and claims set. -/
theorem issue_access_verify_roundtrip_witness :
    ∃ p, verify_token cfgOff 0
        (create_access_token cfgOff 0 "jti-1" [("sub", JVal.str "u1")] none) = .ok p
      ∧ (∀ k v, Claims.get [("sub", JVal.str "u1")] k = some v →
          Claims.get p k = some v)
      ∧ Claims.get p "type" = some (.str "access") :=
  issue_access_verify_roundtrip cfgOff 0 "jti-1" [("sub", JVal.str "u1")]
    (by decide) (by decide) (by decide) (by decide) (by decide) (by decide)

/-- C4 counterexample: under the valid, blacklist-enabled configuration
`cfgEx`, typed verification of a freshly issued refresh token neither
succeeds nor reports the wrong-token-type error — both typed verifiers
propagate the uncaught manager-construction `TypeError`. -/
theorem refresh_typed_crashes_when_enabled_cex :
    cfgEx.validate = true
      ∧ verify_refresh_token cfgEx 0
          (create_refresh_token cfgEx 0 "jti-2" [("sub", JVal.str "u1")])
          = .error .typeError
      ∧ verify_access_token cfgEx 0
          (create_refresh_token cfgEx 0 "jti-2" [("sub", JVal.str "u1")])
          = .error .typeError := by
  decide

/-- C4 amended: under every valid configuration whose blacklist feature is
disabled, a freshly issued refresh token passes refresh-typed verification
and fails access-typed verification with the wrong-token-type error, an
error distinct from the revoked, expired and invalid-token errors; with
the blacklist enabled both typed verifiers instead propagate the uncaught
manager-construction `TypeError`. -/
theorem refresh_token_typed_verification (cfg : JWTConfig)
    (now : Int) (jti : String) (c : Claims)
    (hval : cfg.validate = true)
    (hoff : cfg.enable_blacklist = false) :
    (∃ p, verify_refresh_token cfg now (create_refresh_token cfg now jti c) = .ok p)
      ∧ verify_access_token cfg now (create_refresh_token cfg now jti c)
          = .error (.wrongType "access")
      ∧ VerifyError.wrongType "access" ≠ .revoked
      ∧ VerifyError.wrongType "access" ≠ .expired
      ∧ VerifyError.wrongType "access" ≠ .invalid := by
  have href := validate_pos_refresh hval
  set tc := ((((c.insert "exp" (.num (now + 60 * cfg.refresh_token_expires))).insert
      "type" (.str "refresh")).insert "iat" (.num now)).insert
      "jti" (.str jti)) with htc
  have htok : create_refresh_token cfg now jti c
      = .valid tc cfg.secret_key cfg.algorithm := by
    simp [create_refresh_token, htc]
  have hdec : jwtDecode (create_refresh_token cfg now jti c)
      cfg.secret_key cfg.algorithm now = .ok tc := by
    rw [htok]
    simp only [jwtDecode, beq_self_eq_true, Bool.and_self, if_true]
    simp only [htc, stamp_get_exp]
    rw [if_neg (by omega)]
  have hvt : verify_token cfg now (create_refresh_token cfg now jti c)
      = .ok tc := by
    simp only [verify_token, hdec]
    simp [managerInitCrashes, hoff]
  have htyv : Claims.get tc "type" = some (.str "refresh") := by
    rw [htc, stamp_get_type]
  refine ⟨⟨tc, ?_⟩, ?_, by decide, by decide, by decide⟩
  · simp [verify_refresh_token, hvt, htyv]
  · simp [verify_access_token, hvt, htyv]

/-- Witness for the amended C4 at a concrete disabled-blacklist
configuration and claims set. -/
theorem refresh_token_typed_verification_witness :
    (∃ p, verify_refresh_token cfgOff 0
        (create_refresh_token cfgOff 0 "jti-2" [("sub", JVal.str "u1")]) = .ok p)
      ∧ verify_access_token cfgOff 0
          (create_refresh_token cfgOff 0 "jti-2" [("sub", JVal.str "u1")])
          = .error (.wrongType "access")
      ∧ VerifyError.wrongType "access" ≠ .revoked
      ∧ VerifyError.wrongType "access" ≠ .expired
      ∧ VerifyError.wrongType "access" ≠ .invalid :=
  refresh_token_typed_verification cfgOff 0 "jti-2"
    [("sub", JVal.str "u1")] (by decide) (by decide)

/-- `is_blacklisted` is an existence check: true exactly when the store is
reachable and some record carries the token's fingerprint; the number of
matching records is irrelevant. -/
theorem is_blacklisted_iff (store : Store) (t : TokenStr) :
    is_blacklisted store t = true ↔
      store.available = true ∧
        ∃ rec ∈ store.records, rec.token_hash = hash_token t := by
  unfold is_blacklisted
  by_cases hav : store.available = true
  · rw [if_pos hav]
    simp only [hav, true_and, decide_eq_true_eq, List.length_pos]
    rw [Ne, List.filter_eq_nil_iff]
    push_neg
    constructor
    · rintro ⟨rec, hmem, hbeq⟩
      exact ⟨rec, hmem, by simpa using hbeq⟩
    · rintro ⟨rec, hmem, heq⟩
      exact ⟨rec, hmem, by simpa using heq⟩
  · rw [if_neg hav]
    simp [hav]

/-- Reporting of `add_to_blacklist`: its boolean result is exactly the
store's reachability. -/
theorem add_to_blacklist_fst (cfg : JWTConfig) (store : Store) (now : Int)
    (t : TokenStr) (r : String) :
    (add_to_blacklist cfg store now t r).1 = store.available := by
  unfold add_to_blacklist
  by_cases hav : store.available = true
  · simp [hav]
  · simp only []
    rw [if_neg hav]
    simp at hav
    simp [hav]

/-- Effect of a successful `add_to_blacklist`: the new store is the old one
with exactly the new record appended. -/
theorem add_to_blacklist_records (cfg : JWTConfig) (store : Store)
    (now : Int) (t : TokenStr) (r : String)
    (hav : store.available = true) :
    (add_to_blacklist cfg store now t r).2 =
      { store with records := store.records ++
          [{ token_hash := hash_token t, reason := r, revoked_at := now,
             expires_at := get_token_expiration cfg now t }] } := by
  unfold add_to_blacklist
  simp only []
  rw [if_pos hav]

/-- Example token: an access token issued under `cfgEx`. -/
def tokEx : TokenStr :=
  create_access_token cfgEx 0 "jti-1" [("sub", JVal.str "u1")] none

/-- The payload carried by `tokEx`: the example claims with the four
reserved claims stamped. -/
def payloadEx : Claims :=
  Claims.insert (Claims.insert (Claims.insert (Claims.insert
    [("sub", JVal.str "u1")] "exp" (.num 1800)) "type" (.str "access"))
    "iat" (.num 0)) "jti" (.str "jti-1")

/-- Example store state: unreachable (HTTP calls fail), no records. -/
def storeDown : Store := { available := false, records := [] }

/-- C1: evaluation of the code at the failing input.  Under the valid,
blacklist-enabled configuration `cfgEx`, the freshly issued token `tokEx`
decodes successfully (valid signature, future `exp`), yet `revoke_token`
returns false and leaves the store unchanged (the manager-construction
`TypeError` is swallowed by its broad `except`), and `verify_token` fails
with that uncaught `TypeError` rather than ever reporting revocation: the
`BlacklistManager(jwt_config=config)` call omits the required positional
`mongodb_api_url`, so the revocation effect the specification describes
can never occur. -/
theorem revocation_wiring_bug :
    jwtDecode tokEx cfgEx.secret_key cfgEx.algorithm 0 = .ok payloadEx
      ∧ revoke_token cfgEx storeEx 0 tokEx "r" = (false, storeEx)
      ∧ verify_token cfgEx 0 tokEx = .error .typeError := by
  decide

/-- C7: revocation is logically idempotent at the revocation-client level
(the specification's section 4.4 `revoke`,
`BlacklistManager.add_to_blacklist`): after a successful revocation, a
second revocation of the same token also reports success; both the
duplicate-record store and the single-record store answer `is_blacklisted`
with true; and on every reachable store `is_blacklisted` is determined by
the existence of a record carrying the token's fingerprint — not by how
many such records there are. -/
theorem revoke_idempotent_client (cfg : JWTConfig) (store : Store)
    (now now2 : Int) (t : TokenStr) (r1 r2 : String)
    (h1 : (add_to_blacklist cfg store now t r1).1 = true) :
    (add_to_blacklist cfg (add_to_blacklist cfg store now t r1).2 now2 t r2).1
        = true
      ∧ is_blacklisted
          (add_to_blacklist cfg (add_to_blacklist cfg store now t r1).2
            now2 t r2).2 t = true
      ∧ is_blacklisted (add_to_blacklist cfg store now t r1).2 t = true
      ∧ (∀ s : Store, s.available = true →
          (is_blacklisted s t = true ↔
            ∃ rec ∈ s.records, rec.token_hash = hash_token t)) := by
  have hav : store.available = true := by
    rw [← add_to_blacklist_fst cfg store now t r1]
    exact h1
  have hs1 := add_to_blacklist_records cfg store now t r1 hav
  have hav1 : (add_to_blacklist cfg store now t r1).2.available = true := by
    rw [hs1]
    exact hav
  have hs2 := add_to_blacklist_records cfg
    (add_to_blacklist cfg store now t r1).2 now2 t r2 hav1
  refine ⟨?_, ?_, ?_, ?_⟩
  · rw [add_to_blacklist_fst]
    exact hav1
  · rw [is_blacklisted_iff]
    refine ⟨by rw [hs2]; exact hav1, ?_⟩
    rw [hs2]
    exact ⟨{ token_hash := hash_token t, reason := r2, revoked_at := now2,
             expires_at := get_token_expiration cfg now2 t },
           List.mem_append_right _ (List.mem_singleton.mpr rfl), rfl⟩
  · rw [is_blacklisted_iff]
    refine ⟨hav1, ?_⟩
    rw [hs1]
    exact ⟨{ token_hash := hash_token t, reason := r1, revoked_at := now,
             expires_at := get_token_expiration cfg now t },
           List.mem_append_right _ (List.mem_singleton.mpr rfl), rfl⟩
  · intro s hs
    rw [is_blacklisted_iff]
    simp [hs]

/-- Witness for C7: the duplicate revocation of a concrete token also
reports success. -/
theorem revoke_idempotent_client_witness :
    (add_to_blacklist cfgEx (add_to_blacklist cfgEx storeEx 0 tokEx "r").2
        0 tokEx "r2").1 = true :=
  (revoke_idempotent_client cfgEx storeEx 0 0 tokEx "r" "r2" (by decide)).1

/-- C2 counterexample: flipping the only revocation-related configuration
switch toggles verification between the uncaught manager-construction
`TypeError` (feature on) and skipping revocation entirely (feature off);
neither outcome is a revoked/not-revoked decision about an unreachable
store, and the client itself answers an unreachable store with the same
false as an empty reachable one. -/
theorem revocation_unavailability_no_switch_cex :
    verify_token cfgEx 0 tokEx = .error .typeError
      ∧ verify_token cfgOff 0 tokEx = .ok payloadEx
      ∧ is_blacklisted storeDown tokEx = is_blacklisted storeEx tokEx := by
  decide

/-- C2 amended: unavailability handling is hardcoded, not configurable.
For every configuration the verifier never consults the revocation store:
with the blacklist feature on it fails with the uncaught
manager-construction `TypeError` before any store query, and with it off
it skips revocation and returns the payload; the revocation client itself
hardcodes fail-open, answering false on every unreachable store. -/
theorem revocation_unavailability_hardcoded (cfg : JWTConfig) (now : Int)
    (t : TokenStr) (p : Claims) (s : Store)
    (hd : jwtDecode t cfg.secret_key cfg.algorithm now = .ok p)
    (hs : s.available = false) :
    (managerInitCrashes cfg = true →
        verify_token cfg now t = .error .typeError)
      ∧ (managerInitCrashes cfg = false → verify_token cfg now t = .ok p)
      ∧ is_blacklisted s t = false := by
  refine ⟨?_, ?_, ?_⟩
  · intro hc
    simp only [verify_token, hd]
    rw [if_pos hc]
  · intro hc
    simp only [verify_token, hd]
    rw [if_neg (by rw [hc]; exact Bool.false_ne_true)]
  · simp [is_blacklisted, hs]

/-- Witness for the amended C2: the enabled example configuration crashes
verification of a decodable token before any store query. -/
theorem revocation_unavailability_hardcoded_witness :
    verify_token cfgEx 0 tokEx = .error .typeError :=
  (revocation_unavailability_hardcoded cfgEx 0 tokEx payloadEx storeDown
    (by decide) rfl).1 (by decide)

/-- C5: `add_to_blacklist` reports success iff the remote write succeeded;
a successful call appends exactly one record carrying the token's
fingerprint, the reason and the best-effort expiry; a token that fails to
decode yields a null expiry; and a failed write leaves the store
unchanged. -/
theorem add_to_blacklist_contract (cfg : JWTConfig) (store : Store)
    (now : Int) (t : TokenStr) (reason : String) :
    ((add_to_blacklist cfg store now t reason).1 = true ↔ store.available = true)
      ∧ (store.available = true →
          ∃ rec, (add_to_blacklist cfg store now t reason).2.records
              = store.records ++ [rec]
            ∧ rec.token_hash = hash_token t
            ∧ rec.reason = reason
            ∧ rec.expires_at = get_token_expiration cfg now t)
      ∧ (∀ e, jwtDecode t cfg.secret_key cfg.algorithm now = .error e →
          get_token_expiration cfg now t = none)
      ∧ (store.available = false →
          (add_to_blacklist cfg store now t reason).2 = store) := by
  refine ⟨?_, ?_, ?_, ?_⟩
  · unfold add_to_blacklist
    by_cases hav : store.available = true
    · simp [hav]
    · simp only []
      rw [if_neg hav]
      simp [hav]
  · intro hav
    unfold add_to_blacklist
    simp only []
    rw [if_pos hav]
    exact ⟨_, rfl, rfl, rfl, rfl⟩
  · intro e he
    unfold get_token_expiration
    rw [he]
  · intro hav
    unfold add_to_blacklist
    simp only []
    rw [if_neg (by rw [hav]; exact Bool.false_ne_true)]

/-- Witness for C5: a string that is not a JWT at all still gets a record
with a null expiry. -/
theorem add_to_blacklist_contract_witness :
    get_token_expiration cfgEx 0 (.garbage "not-a-jwt") = none :=
  (add_to_blacklist_contract cfgEx storeEx 0 (.garbage "not-a-jwt") "r").2.2.1
    .invalidTok (by decide)

/-- C6 counterexample: on a remote-store error `is_blacklisted` returns the
plain boolean false — exactly the value it returns when no matching record
exists — so the failure is a silent false, not a distinguishable signal. -/
theorem is_blacklisted_silent_false_cex :
    is_blacklisted { available := false, records := [] } tokEx = false
      ∧ is_blacklisted { available := true, records := [] } tokEx = false := by
  decide

/-- C6 amended: `is_blacklisted` returns true iff the store is reachable
and at least one record carries the token's fingerprint; it never raises,
and on a remote-store error it returns plain false, indistinguishable from
the not-revoked answer. -/
theorem is_blacklisted_contract (store : Store) (t : TokenStr) :
    (is_blacklisted store t = true ↔
      store.available = true ∧
        ∃ rec ∈ store.records, rec.token_hash = hash_token t)
      ∧ (store.available = false → is_blacklisted store t = false) := by
  refine ⟨is_blacklisted_iff store t, ?_⟩
  intro hav
  simp [is_blacklisted, hav]

/-- Witness for the amended C6 at a concrete unreachable store. -/
theorem is_blacklisted_contract_witness :
    is_blacklisted storeDown tokEx = false :=
  (is_blacklisted_contract storeDown tokEx).2 rfl

/-- C8: the role check passes iff the required role set intersects the
claims' roles collection; the permission check passes iff every required
permission is present; a missing `roles` or `permissions` field behaves as
the empty collection, so a nonempty requirement is always rejected — never
wildcard-allowed. -/
theorem guard_role_permission_checks (c : Claims) (rr rp : List String) :
    (roleCheck rr c = true ↔ ∃ r ∈ rr, r ∈ rolesOf c)
      ∧ (permCheck rp c = true ↔ ∀ p ∈ rp, p ∈ permsOf c)
      ∧ (Claims.get c "roles" = none → roleCheck rr c = false)
      ∧ (Claims.get c "permissions" = none → rp ≠ [] →
          permCheck rp c = false) := by
  refine ⟨?_, ?_, ?_, ?_⟩
  · simp [roleCheck, List.any_eq_true]
  · simp [permCheck, List.all_eq_true]
  · intro h
    have hr : rolesOf c = [] := by simp [rolesOf, h]
    simp [roleCheck, hr]
  · intro h hne
    have hp : permsOf c = [] := by simp [permsOf, h]
    cases rp with
    | nil => exact absurd rfl hne
    | cons q qs => simp [permCheck, hp]

/-- Witness for C8: a claims set with no `roles` field is rejected by the
role check even against the default `admin` requirement. -/
theorem guard_role_permission_checks_witness :
    roleCheck ["admin"] [("sub", JVal.str "u1")] = false :=
  (guard_role_permission_checks [("sub", JVal.str "u1")] ["admin"] ["read"]).2.2.1
    (by decide)

/-- Example structurally complete and valid YAML configuration contents. -/
def yamlEx : YamlConfig where
  algorithm := "HS256"
  access_token_expires := 120
  refresh_token_expires := 1440
  api_mode := "internal"
  internal_api_url := "http://internal.local"
  public_api_url := "https://public.local"
  blacklist_collection := "jwt_blacklist"
  blacklist_enabled := true

/-- Example filesystem: every path holds `yamlEx`. -/
def readFileEx : String → Option YamlConfig := fun _ => some yamlEx

/-- C9 counterexample: constructing the package configuration with the
obvious placeholder signing key succeeds — no error is raised at
construction time for a placeholder value. -/
theorem placeholder_key_accepted_cex :
    (createJWTConfig "your-secret-key-here" "config.yaml" readFileEx).isOk
      = true := by
  decide

/-- C9 amended: an unset, empty or all-whitespace signing key fails fast
with `ValueError` (the spec's `ConfigurationInvalid`) at construction time,
before any token operation; a placeholder signing key is not rejected at
construction — only the legacy configuration's `validate` method reports
the placeholder invalid. -/
theorem config_blank_key_fails_fast (sk cf : String)
    (rf : String → Option YamlConfig) (h : strBlank sk = true) :
    createJWTConfig sk cf rf = .error (.valueError "JWT_SECRET_KEY")
      ∧ LegacyJWTConfig.validate
          { secret_key := "your-secret-key-here", algorithm := "HS256",
            access_token_expires := 30, refresh_token_expires := 1440 }
          = false := by
  refine ⟨?_, by decide⟩
  unfold createJWTConfig
  rw [if_pos h]

/-- Witness for the amended C9: the empty signing key. -/
theorem config_blank_key_fails_fast_witness :
    createJWTConfig "" "config.yaml" readFileEx
        = .error (.valueError "JWT_SECRET_KEY")
      ∧ LegacyJWTConfig.validate
          { secret_key := "your-secret-key-here", algorithm := "HS256",
            access_token_expires := 30, refresh_token_expires := 1440 }
          = false :=
  config_blank_key_fails_fast "" "config.yaml" readFileEx (by decide)

/-- C10: `refresh_access_token` is total (never raises at its interface —
every exception, including the manager-construction `TypeError` at
blacklist-enabled configurations, is caught and mapped to none): it
returns none exactly when refresh-typed verification fails, and otherwise
returns a freshly issued access token whose payload carries the refresh
payload's non-reserved claims unchanged with `exp`, `type`, `iat` and
`jti` removed and re-stamped. -/
theorem refresh_access_token_contract (cfg : JWTConfig)
    (now : Int) (jti_new : String) (rt : TokenStr) :
    (∀ e, verify_refresh_token cfg now rt = .error e →
        refresh_access_token cfg now jti_new rt = none)
      ∧ (∀ p, verify_refresh_token cfg now rt = .ok p →
          ∃ tc, refresh_access_token cfg now jti_new rt
              = some (.valid tc cfg.secret_key cfg.algorithm)
            ∧ Claims.get tc "type" = some (.str "access")
            ∧ Claims.get tc "exp"
                = some (.num (now + 60 * cfg.access_token_expires))
            ∧ Claims.get tc "iat" = some (.num now)
            ∧ Claims.get tc "jti" = some (.str jti_new)
            ∧ ∀ k, k ≠ "exp" → k ≠ "type" → k ≠ "iat" → k ≠ "jti" →
                Claims.get tc k = Claims.get p k) := by
  constructor
  · intro e he
    simp [refresh_access_token, he]
  · intro p hp
    simp only [refresh_access_token, hp]
    refine ⟨((((((((p.erase "exp").erase "type").erase "iat").erase
        "jti").insert "exp" (.num (now + 60 * cfg.access_token_expires))).insert
        "type" (.str "access")).insert "iat" (.num now)).insert
        "jti" (.str jti_new)), ?_, ?_, ?_, ?_, ?_, ?_⟩
    · simp [create_access_token]
    · rw [stamp_get_type]
    · rw [stamp_get_exp]
    · rw [claims_get_insert_ne _ _ _ _ (by decide), claims_get_insert_self]
    · rw [claims_get_insert_self]
    · intro k h1 h2 h3 h4
      rw [stamp_get_other _ _ _ _ _ _ (Ne.symm h1) (Ne.symm h2) (Ne.symm h3)
        (Ne.symm h4)]
      rw [claims_get_erase_ne _ _ _ (Ne.symm h4),
        claims_get_erase_ne _ _ _ (Ne.symm h3),
        claims_get_erase_ne _ _ _ (Ne.symm h2),
        claims_get_erase_ne _ _ _ (Ne.symm h1)]

/-- Witness for C10: a non-JWT input yields none. -/
theorem refresh_access_token_contract_witness :
    refresh_access_token cfgEx 0 "jti-3" (.garbage "x") = none :=
  (refresh_access_token_contract cfgEx 0 "jti-3" (.garbage "x")).1
    .invalid (by decide)
